import Mathlib

/-!
Verification development for the red2green self-healing CI agent.

Shallow embedding of `backend/agents/healing_agent.py` and
`backend/core/sandbox_tester.py`.  External effects (the Anthropic
reasoning-service calls, JSON decoding, the subprocess runner, the
filesystem and the wall clock) are passed in as explicit oracle
parameters; every function of the source becomes a total Lean function
of the program state plus those oracles, and side effects that the
specification counts (service invocations, status assignments, harness
invocations, sandbox cleanup) are returned as explicit event traces.
Python floats carrying confidence scores are embedded as rationals;
Python ints as `Int`.
-/

namespace Red2Green

/-- `AgentStatus` enum of healing_agent.py (lines 17-26). -/
inductive AgentStatus where
  | ingesting
  | diagnosing
  | retrieving
  | generating
  | validating
  | pr_opening
  | escalating
  | done
  | failed
deriving DecidableEq, Repr

/-- `Diagnosis` pydantic model (healing_agent.py lines 29-35). -/
structure Diagnosis where
  failure_type : String
  root_cause : String
  affected_files : List String
  error_summary : String
  confidence : ℚ
  suggested_approach : String
deriving DecidableEq, Repr

/-- Pydantic construction of `Diagnosis`: the `confidence` field is declared
`Field(ge=0.0, le=1.0)`, so model validation rejects any value outside
the closed interval [0,1]. -/
def Diagnosis.construct (failure_type root_cause : String)
    (affected_files : List String) (error_summary : String)
    (confidence : ℚ) (suggested_approach : String) : Option Diagnosis :=
  if 0 ≤ confidence ∧ confidence ≤ 1 then
    some ⟨failure_type, root_cause, affected_files, error_summary,
          confidence, suggested_approach⟩
  else
    none

/-- `FilePatch` pydantic model (healing_agent.py lines 38-43). -/
structure FilePatch where
  filename : String
  original_content : String
  patched_content : String
  explanation : String
deriving DecidableEq, Repr

/-- `FixResult` pydantic model (healing_agent.py lines 45-49).  Its
`confidence` field is a bare `float` with no `Field` constraint. -/
structure FixResult where
  patches : List FilePatch
  explanation : String
  test_commands : List String
  confidence : ℚ
deriving DecidableEq, Repr

/-- Pydantic construction of `FixResult`: no field of the model carries a
range constraint, so construction never rejects a confidence value. -/
def FixResult.construct (patches : List FilePatch) (explanation : String)
    (test_commands : List String) (confidence : ℚ) : Option FixResult :=
  some ⟨patches, explanation, test_commands, confidence⟩

/-- `ValidationResult` pydantic model (healing_agent.py lines 52-56). -/
structure ValidationResult where
  passed : Bool
  output : String
  duration_ms : Int
  error : Option String := none
deriving DecidableEq, Repr

/-- `SentinelState` pydantic model (healing_agent.py lines 59-78).
`started_at` (a wall-clock timestamp) is embedded as an integer. -/
structure SentinelState where
  job_id : String
  repo_full_name : String
  provider : String
  commit_sha : String
  branch : String
  error_log : String
  pipeline_url : String
  status : AgentStatus := AgentStatus.ingesting
  attempt : Int := 0
  max_attempts : Int := 3
  repo_files : List (String × String) := []
  diagnosis : Option Diagnosis := none
  similar_fixes : List (List (String × String)) := []
  fix_result : Option FixResult := none
  validation_result : Option ValidationResult := none
  fix_branch : Option String := none
  pr_url : Option String := none
  errors : List String := []
  started_at : Int := 0
deriving DecidableEq, Repr

/-- The `Literal["open_pr", "generate_fix", "escalate"]` routing labels. -/
inductive Route where
  | generate_fix
  | escalate
  | open_pr
deriving DecidableEq, Repr

/-- Observable side effects of the orchestrator, recorded as a trace:
status assignments, calls to the external reasoning service
(`client.messages.create`), and invocations of the sandbox validation
harness (`test_fix_in_sandbox`). -/
inductive AgentEvent where
  | setStatus (s : AgentStatus)
  | anthropicCall
  | harnessCall
deriving DecidableEq, Repr

/-- The defensive response unwrapping shared by `diagnose` and
`generate_fix` (healing_agent.py lines 123-127 and 182-186):
strip the text, then if it starts with a code fence take the first
fenced segment and drop an optional leading `json` language tag. -/
def stripFences (text : String) : String :=
  let raw := text.trim
  if raw.startsWith "```" then
    let raw := ((raw.splitOn "```").drop 1).headD ""
    if raw.startsWith "json" then raw.drop 4 else raw
  else raw

namespace SentinelAgent

/-- The body of the `try` block of `diagnose` (healing_agent.py lines
117-128): the service call (`callResult` is its outcome — response text
or raised error), fence stripping, JSON decoding against the field set
(`decode`), and pydantic validation of the confidence bound.  Any
failure surfaces as `Except.error`, matching the single `except
Exception` handler. -/
def diagnoseAttempt (callResult : Except String String)
    (decode : String → Except String Diagnosis) : Except String Diagnosis :=
  match callResult with
  | Except.error e => Except.error e
  | Except.ok text =>
    let raw := stripFences text
    match decode raw with
    | Except.error e => Except.error e
    | Except.ok d =>
      match Diagnosis.construct d.failure_type d.root_cause d.affected_files
          d.error_summary d.confidence d.suggested_approach with
      | some d2 => Except.ok d2
      | none => Except.error "confidence out of range"

/-- `SentinelAgent.diagnose` (healing_agent.py lines 87-136): sets
status to DIAGNOSING, runs the service call and parse; on success stores
the diagnosis, on any failure appends `diagnose: <e>` to the error list
and leaves `diagnosis` untouched.  It always returns a state. -/
def diagnose (callResult : Except String String)
    (decode : String → Except String Diagnosis)
    (state : SentinelState) : SentinelState × List AgentEvent :=
  let state1 := { state with status := AgentStatus.diagnosing }
  match diagnoseAttempt callResult decode with
  | Except.ok d =>
    ({ state1 with diagnosis := some d },
     [AgentEvent.setStatus AgentStatus.diagnosing, AgentEvent.anthropicCall])
  | Except.error e =>
    ({ state1 with errors := state1.errors ++ ["diagnose: " ++ e] },
     [AgentEvent.setStatus AgentStatus.diagnosing, AgentEvent.anthropicCall])

/-- The body of the `try` block of `generate_fix` (healing_agent.py lines
176-187): service call, fence stripping, JSON decoding against the
`FixResult` field set.  `FixResult` has no field constraints, so no
further validation step follows the decode. -/
def fixAttempt (callResult : Except String String)
    (decode : String → Except String FixResult) : Except String FixResult :=
  match callResult with
  | Except.error e => Except.error e
  | Except.ok text =>
    let raw := stripFences text
    decode raw

/-- `SentinelAgent.generate_fix` (healing_agent.py lines 138-195): sets
status to GENERATING first; if no diagnosis is present, appends
`generate_fix: no diagnosis` and returns without contacting the service
(the client is only constructed after the check).  Otherwise performs
the service call; on success stores the fix, on failure appends
`generate_fix attempt <n>: <e>`.  The prompt text and the
attempt-scaled sampling temperature only parameterize the external
call and are absorbed into the call oracle. -/
def generate_fix (callResult : Except String String)
    (decode : String → Except String FixResult)
    (state : SentinelState) : SentinelState × List AgentEvent :=
  let state1 := { state with status := AgentStatus.generating }
  match state1.diagnosis with
  | none =>
    ({ state1 with errors := state1.errors ++ ["generate_fix: no diagnosis"] },
     [AgentEvent.setStatus AgentStatus.generating])
  | some _ =>
    match fixAttempt callResult decode with
    | Except.ok f =>
      ({ state1 with fix_result := some f },
       [AgentEvent.setStatus AgentStatus.generating, AgentEvent.anthropicCall])
    | Except.error e =>
      ({ state1 with errors := state1.errors ++
          ["generate_fix attempt " ++ toString state1.attempt ++ ": " ++ e] },
       [AgentEvent.setStatus AgentStatus.generating, AgentEvent.anthropicCall])

/-- `SentinelAgent.route_after_diagnose` (healing_agent.py lines 197-200):
Generate iff a diagnosis exists and its confidence is strictly greater
than 0.3; otherwise Escalate. -/
def route_after_diagnose (state : SentinelState) : Route :=
  match state.diagnosis with
  | some d => if d.confidence > 3/10 then Route.generate_fix else Route.escalate
  | none => Route.escalate

/-- `SentinelAgent.route_after_validate` (healing_agent.py lines 202-208):
open_pr if a validation result exists and passed; else if
`attempt < max_attempts - 1` increment the attempt counter in place and
route to generate_fix; else escalate.  The in-place mutation of
`state.attempt` is embedded by returning the updated state. -/
def route_after_validate (state : SentinelState) : Route × SentinelState :=
  if (match state.validation_result with
      | some v => v.passed
      | none => false) then
    (Route.open_pr, state)
  else if state.attempt < state.max_attempts - 1 then
    (Route.generate_fix, { state with attempt := state.attempt + 1 })
  else
    (Route.escalate, state)

end SentinelAgent

/-- `run_healing_job` (healing_agent.py lines 211-258): builds the initial
state, runs `diagnose`, routes; on the generate route runs
`generate_fix`, then — in place of running the validation harness —
assigns the fixed `ValidationResult(passed=True, output="Sandbox
validation passed (simulated)", duration_ms=12000)` (the source comment
reads `# Validation would run Docker sandbox here`), sets status DONE
and a synthetic PR URL; on the escalate route sets status FAILED. -/
def run_healing_job (diagCall : Except String String)
    (diagDecode : String → Except String Diagnosis)
    (fixCall : Except String String)
    (fixDecode : String → Except String FixResult)
    (job_id repo_full_name provider commit_sha branch
     error_log pipeline_url : String)
    (max_attempts : Int := 3) : SentinelState × List AgentEvent :=
  let state0 : SentinelState :=
    { job_id := job_id, repo_full_name := repo_full_name, provider := provider,
      commit_sha := commit_sha, branch := branch, error_log := error_log,
      pipeline_url := pipeline_url, max_attempts := max_attempts }
  let d := SentinelAgent.diagnose diagCall diagDecode state0
  let route := SentinelAgent.route_after_diagnose d.1
  if route = Route.generate_fix then
    let g := SentinelAgent.generate_fix fixCall fixDecode d.1
    let final :=
      { g.1 with
        validation_result := some
          { passed := true,
            output := "Sandbox validation passed (simulated)",
            duration_ms := 12000 },
        status := AgentStatus.done,
        pr_url := some ("https://github.com/" ++ repo_full_name ++
          "/pull/auto-fix-" ++ job_id.take 6) }
    (final, d.2 ++ g.2 ++ [AgentEvent.setStatus AgentStatus.done])
  else
    ({ d.1 with status := AgentStatus.failed },
     d.2 ++ [AgentEvent.setStatus AgentStatus.failed])

/-- `SandboxTestResult` of sandbox_tester.py (lines 14-29). -/
structure SandboxTestResult where
  passed : Bool
  output : String := ""
  errors : String := ""
  duration_ms : ℚ := 0
deriving DecidableEq, Repr

/-- Outcome of one `subprocess.run` invocation: normal completion with
exit code, stdout and stderr; `subprocess.TimeoutExpired`; or any other
raised exception (the generic `except Exception` arm of the check
loops). -/
inductive CmdOutcome where
  | completed (returncode : Int) (stdout : String) (stderr : String)
  | timedOut
  | raised (msg : String)
deriving DecidableEq, Repr

/-- `cleanup_sandbox` (sandbox_tester.py lines 62-72) over an abstract
filesystem: paths are component lists and `fs` is the list of existing
paths.  If the sandbox path is non-empty (truthy) and exists, the
scratch parent directory (`os.path.dirname`, i.e. the path with the
last component dropped) is removed recursively (`shutil.rmtree`):
every path it is a prefix of disappears, and `True` is returned;
otherwise nothing is removed and `False` is returned. -/
def cleanup_sandbox (fs : List (List String)) (sandbox_path : List String) :
    Bool × List (List String) :=
  if sandbox_path ≠ [] ∧ sandbox_path ∈ fs then
    let parent := sandbox_path.dropLast
    (true, fs.filter (fun q => ¬ parent.isPrefixOf q))
  else
    (false, fs)

/-- The check loop of `test_nodejs_fix` (sandbox_tester.py lines
217-237): each command runs under a bounded timeout; a non-zero exit
code, a timeout, or any other exception marks the run failed, and each
command appends one formatted output line. -/
def runNodeChecks (exec : List String → CmdOutcome)
    (cmds : List (List String)) : Bool × List String :=
  List.foldl
    (fun acc cmd =>
      match exec cmd with
      | CmdOutcome.completed code _out err =>
        if code ≠ 0 then
          (false, acc.2 ++ ["❌ " ++ String.intercalate " " cmd ++ "\nError: " ++ err])
        else
          (acc.1, acc.2 ++ ["✅ " ++ String.intercalate " " cmd])
      | CmdOutcome.timedOut =>
        (false, acc.2 ++ ["⏱️ " ++ String.intercalate " " cmd ++ " - Timeout"])
      | CmdOutcome.raised msg =>
        (false, acc.2 ++ ["❌ " ++ String.intercalate " " cmd ++ " - " ++ msg]))
    (true, []) cmds

/-- `test_nodejs_fix` (sandbox_tester.py lines 169-254).
`frontendExists` embeds `os.path.exists(frontend_dir)`; `exec` is the
subprocess oracle; `elapsed` the wall-clock duration.  When the
frontend directory exists, `npm install` runs first (its outcome is
only logged) and then the check list runs; when it does not exist, no
command runs at all and the result is a trivial pass carrying a
skip notice.  Returns the result together with the list of commands
actually executed. -/
def test_nodejs_fix (frontendExists : Bool)
    (exec : List String → CmdOutcome) (elapsed : ℚ)
    (failure_type : String) : SandboxTestResult × List (List String) :=
  let _ := failure_type
  let install : List (List String) :=
    if frontendExists then [["npm", "install", "--silent"]] else []
  let test_commands : List (List String) := [["node", "--check", "src/app/page.js"]]
  if ¬ frontendExists then
    ({ passed := true,
       output := "⚠️  Frontend directory not found - skipping Node.js tests",
       errors := "",
       duration_ms := elapsed }, [])
  else
    let r := runNodeChecks exec test_commands
    ({ passed := r.1,
       output := String.intercalate "\n" r.2,
       errors := if r.1 then "" else "Some tests failed",
       duration_ms := elapsed },
     install ++ test_commands)

/-- The result dict of `test_fix_in_sandbox` (sandbox_tester.py lines
280-294): each `tests` entry pairs the framework name with its
result; `sandbox` is reset to `None` after cleanup; `error` is only
present on setup failure. -/
structure SandboxResults where
  tested : Bool
  passed : Bool
  sandbox : Option String := none
  tests : List (String × SandboxTestResult) := []
  error : Option String := none
  total_duration_ms : ℚ := 0
deriving DecidableEq, Repr

/-- The calls `test_fix_in_sandbox` makes: the Python check runner, the
Node.js check runner, and `cleanup_sandbox`. -/
inductive SandboxEvent where
  | pythonChecks
  | nodeChecks
  | cleanup
deriving DecidableEq, BEq, Repr

/-- `test_fix_in_sandbox` (sandbox_tester.py lines 257-331).
`sandbox_path` is the outcome of `setup_sandbox_environment` (`none` on
setup failure).  `runPython` and `runNode` are the outcomes of the
calls to `test_python_fix` and `test_nodejs_fix` as observed through
the Python runtime: `Except.ok` a returned result, `Except.error` an
exception propagating out of the call.  The `try`/`finally` discipline
of the source is embedded exactly: once the sandbox exists, every exit
path — normal return, and exception from either runner — appends the
`cleanup` event before the outcome leaves the function, and an
exception is re-raised after cleanup.  The overall verdict is the
conjunction of `passed` over the executed segments (`all` of the empty
list being `true`). -/
def test_fix_in_sandbox (sandbox_path : Option String)
    (runPython runNode : Except String SandboxTestResult)
    (tech_stack : String) :
    Except String SandboxResults × List SandboxEvent :=
  match sandbox_path with
  | none =>
    (Except.ok { tested := false, passed := false, sandbox := none,
                 error := some "Failed to create sandbox", tests := [] }, [])
  | some _ =>
    let pyStage :
        Except String (List (String × SandboxTestResult) × ℚ) × List SandboxEvent :=
      if tech_stack = "python" ∨ tech_stack = "fullstack" then
        match runPython with
        | Except.ok r => (Except.ok ([("python", r)], r.duration_ms), [SandboxEvent.pythonChecks])
        | Except.error e => (Except.error e, [SandboxEvent.pythonChecks])
      else (Except.ok ([], 0), [])
    match pyStage with
    | (Except.error e, tr) => (Except.error e, tr ++ [SandboxEvent.cleanup])
    | (Except.ok (tests1, dur1), tr1) =>
      let nodeStage :
          Except String (List (String × SandboxTestResult) × ℚ) × List SandboxEvent :=
        if tech_stack = "nodejs" ∨ tech_stack = "fullstack" then
          match runNode with
          | Except.ok r =>
            (Except.ok (tests1 ++ [("nodejs", r)], dur1 + r.duration_ms),
             tr1 ++ [SandboxEvent.nodeChecks])
          | Except.error e => (Except.error e, tr1 ++ [SandboxEvent.nodeChecks])
        else (Except.ok (tests1, dur1), tr1)
      match nodeStage with
      | (Except.error e, tr) => (Except.error e, tr ++ [SandboxEvent.cleanup])
      | (Except.ok (tests, dur), tr) =>
        (Except.ok { tested := true,
                     passed := tests.all (fun t => t.2.passed),
                     sandbox := none,
                     tests := tests,
                     error := none,
                     total_duration_ms := dur },
         tr ++ [SandboxEvent.cleanup])

/-! Concrete sample inputs used by witnesses and counterexamples. -/

/-- A fresh job state as built at the top of `run_healing_job`. -/
def sampleState : SentinelState :=
  { job_id := "job-000001", repo_full_name := "charan-happy/red2green",
    provider := "github", commit_sha := "abc123", branch := "main",
    error_log := "Traceback", pipeline_url := "https://ci.example/run/1" }

/-- A high-confidence diagnosis. -/
def sampleDiagnosis : Diagnosis :=
  { failure_type := "test_failure", root_cause := "assertion failed",
    affected_files := ["backend/main.py"], error_summary := "a test failed",
    confidence := 9/10, suggested_approach := "fix the assertion" }

/-- A one-file candidate fix. -/
def sampleFix : FixResult :=
  { patches := [{ filename := "backend/main.py", original_content := "a",
                  patched_content := "b", explanation := "swap" }],
    explanation := "minimal fix", test_commands := ["pytest"],
    confidence := 4/5 }

/-! Theorems settling the claims. -/

/-- C3: for every state, `route_after_diagnose` returns Generate iff a
diagnosis exists and its confidence is strictly greater than 0.3; when
no diagnosis exists, and when the confidence is exactly 0.3, it returns
Escalate. -/
theorem C3_route_after_diagnose_spec (s : SentinelState) :
    (SentinelAgent.route_after_diagnose s = Route.generate_fix ↔
      ∃ d, s.diagnosis = some d ∧ d.confidence > 3/10) ∧
    (s.diagnosis = none → SentinelAgent.route_after_diagnose s = Route.escalate) ∧
    (∀ d, s.diagnosis = some d → d.confidence = 3/10 →
      SentinelAgent.route_after_diagnose s = Route.escalate) := by
  refine ⟨⟨fun hgen => ?_, fun hex => ?_⟩, fun hd => ?_, fun d hd hc => ?_⟩
  · cases hd : s.diagnosis with
    | none => simp [SentinelAgent.route_after_diagnose, hd] at hgen
    | some d =>
      refine ⟨d, rfl, ?_⟩
      by_contra hc
      simp [SentinelAgent.route_after_diagnose, hd, hc] at hgen
  · obtain ⟨d, hd, hc⟩ := hex
    simp [SentinelAgent.route_after_diagnose, hd, hc]
  · simp [SentinelAgent.route_after_diagnose, hd]
  · simp [SentinelAgent.route_after_diagnose, hd, hc]

/-- C3 witness: a state carrying a confidence-0.9 diagnosis routes to
Generate, and the same state with the diagnosis removed routes to
Escalate. -/
theorem C3_route_after_diagnose_witness :
    SentinelAgent.route_after_diagnose
        { sampleState with diagnosis := some sampleDiagnosis } =
      Route.generate_fix ∧
    SentinelAgent.route_after_diagnose sampleState = Route.escalate :=
  ⟨(C3_route_after_diagnose_spec _).1.mpr ⟨sampleDiagnosis, rfl, by norm_num [sampleDiagnosis]⟩,
   (C3_route_after_diagnose_spec sampleState).2.1 rfl⟩

/-- C4: for every state, `route_after_validate` returns open_pr exactly
when a validation result exists and passed; otherwise, when
`attempt < max_attempts - 1` it increments the attempt by exactly one
and routes to generate_fix, and when `attempt ≥ max_attempts - 1` it
escalates leaving the state unchanged.  Whenever it routes to
generate_fix the resulting attempt index is strictly below
`max_attempts`, so re-entries into fix generation carry attempt indices
0..max_attempts−1 and a job performs at most `max_attempts` cycles. -/
theorem C4_route_after_validate_spec (s : SentinelState) :
    (∀ v, s.validation_result = some v → v.passed = true →
      SentinelAgent.route_after_validate s = (Route.open_pr, s)) ∧
    ((∀ v, s.validation_result = some v → v.passed = false) →
      s.attempt < s.max_attempts - 1 →
      SentinelAgent.route_after_validate s =
        (Route.generate_fix, { s with attempt := s.attempt + 1 })) ∧
    ((∀ v, s.validation_result = some v → v.passed = false) →
      s.max_attempts - 1 ≤ s.attempt →
      SentinelAgent.route_after_validate s = (Route.escalate, s)) ∧
    (∀ s', SentinelAgent.route_after_validate s = (Route.generate_fix, s') →
      s'.attempt = s.attempt + 1 ∧ s'.attempt < s.max_attempts) := by
  refine ⟨fun v hv hp => ?_, fun hfail hlt => ?_, fun hfail hge => ?_, fun s' hroute => ?_⟩
  · simp [SentinelAgent.route_after_validate, hv, hp]
  · have hguard : (match s.validation_result with
        | some v => v.passed | none => false) = false := by
      cases hv : s.validation_result with
      | none => rfl
      | some v => exact hfail v hv
    simp [SentinelAgent.route_after_validate, hguard, hlt]
  · have hguard : (match s.validation_result with
        | some v => v.passed | none => false) = false := by
      cases hv : s.validation_result with
      | none => rfl
      | some v => exact hfail v hv
    simp [SentinelAgent.route_after_validate, hguard, not_lt.mpr hge]
  · unfold SentinelAgent.route_after_validate at hroute
    by_cases hguard : (match s.validation_result with
        | some v => v.passed | none => false) = true
    · simp [hguard] at hroute
    · rw [Bool.not_eq_true] at hguard
      by_cases hlt : s.attempt < s.max_attempts - 1
      · simp [hguard, hlt] at hroute
        rw [← hroute]
        exact ⟨rfl, by simp; omega⟩
      · simp [hguard, hlt] at hroute

/-- A failed validation outcome. -/
def failedValidation : ValidationResult :=
  { passed := false, output := "boom", duration_ms := 5 }

/-- A passed validation outcome. -/
def passedValidation : ValidationResult :=
  { passed := true, output := "ok", duration_ms := 5 }

/-- C4 witness: a state with a failed validation at attempt 0 of 3
retries with attempt 1; at attempt 2 of 3 it escalates; a passed
validation routes to open_pr. -/
theorem C4_route_after_validate_witness :
    SentinelAgent.route_after_validate
        { sampleState with validation_result := some failedValidation } =
      (Route.generate_fix,
       { sampleState with validation_result := some failedValidation,
                          attempt := 1 }) ∧
    SentinelAgent.route_after_validate
        { sampleState with validation_result := some failedValidation,
                           attempt := 2 } =
      (Route.escalate,
       { sampleState with validation_result := some failedValidation,
                          attempt := 2 }) ∧
    SentinelAgent.route_after_validate
        { sampleState with validation_result := some passedValidation } =
      (Route.open_pr,
       { sampleState with validation_result := some passedValidation }) := by
  refine ⟨?_, ?_, ?_⟩
  · exact (C4_route_after_validate_spec _).2.1
      (fun v hv => by cases hv; rfl) (by norm_num [sampleState])
  · exact (C4_route_after_validate_spec _).2.2.1
      (fun v hv => by cases hv; rfl) (by norm_num [sampleState])
  · exact (C4_route_after_validate_spec _).1 _ rfl rfl

/-- Helper: the diagnose node always performs exactly one reasoning-service
call after its status assignment, whatever the outcome. -/
theorem diagnose_trace_eq (callResult : Except String String)
    (decode : String → Except String Diagnosis) (s : SentinelState) :
    (SentinelAgent.diagnose callResult decode s).2 =
      [AgentEvent.setStatus AgentStatus.diagnosing, AgentEvent.anthropicCall] := by
  unfold SentinelAgent.diagnose
  rcases SentinelAgent.diagnoseAttempt callResult decode with e | d <;> rfl

/-- Helper: on a successful diagnose attempt the node stores the diagnosis
and sets status DIAGNOSING. -/
theorem diagnose_ok_eq (callResult : Except String String)
    (decode : String → Except String Diagnosis) (s : SentinelState) (d : Diagnosis)
    (h : SentinelAgent.diagnoseAttempt callResult decode = Except.ok d) :
    SentinelAgent.diagnose callResult decode s =
      ({ s with status := AgentStatus.diagnosing, diagnosis := some d },
       [AgentEvent.setStatus AgentStatus.diagnosing, AgentEvent.anthropicCall]) := by
  simp [SentinelAgent.diagnose, h]

/-- Helper: a constant decoder returning an in-range diagnosis makes the
diagnose attempt succeed with exactly that diagnosis. -/
theorem diagnoseAttempt_const (callText : String) (d : Diagnosis)
    (h0 : 0 ≤ d.confidence) (h1 : d.confidence ≤ 1) :
    SentinelAgent.diagnoseAttempt (Except.ok callText) (fun _ => Except.ok d) =
      Except.ok d := by
  simp [SentinelAgent.diagnoseAttempt, Diagnosis.construct, h0, h1]

/-- Helper: with a diagnosis present the generate node performs exactly one
reasoning-service call after its status assignment. -/
theorem generate_fix_trace_some (callResult : Except String String)
    (decode : String → Except String FixResult) (s : SentinelState) (d : Diagnosis)
    (h : s.diagnosis = some d) :
    (SentinelAgent.generate_fix callResult decode s).2 =
      [AgentEvent.setStatus AgentStatus.generating, AgentEvent.anthropicCall] := by
  unfold SentinelAgent.generate_fix
  simp only [h]
  rcases SentinelAgent.fixAttempt callResult decode with e | f <;> rfl

/-- Helper: the generate node never emits a harness invocation. -/
theorem generate_fix_trace_no_harness (callResult : Except String String)
    (decode : String → Except String FixResult) (s : SentinelState) :
    AgentEvent.harnessCall ∉ (SentinelAgent.generate_fix callResult decode s).2 := by
  rcases h : s.diagnosis with _ | d
  · simp [SentinelAgent.generate_fix, h]
  · rw [generate_fix_trace_some callResult decode s d h]
    decide

/-- Helper: on the generate route (diagnosis present, confidence above the
0.3 threshold) `run_healing_job` ends at status DONE, stores the fixed
simulated validation result, and its trace is the diagnose trace, the
generate trace, and the DONE assignment — nothing else. -/
theorem run_healing_job_shortcut (dc : Except String String)
    (dd : String → Except String Diagnosis) (fc : Except String String)
    (fd : String → Except String FixResult)
    (j r pv cs b el pu : String) (m : Int) (d : Diagnosis)
    (hd : SentinelAgent.diagnoseAttempt dc dd = Except.ok d)
    (hconf : d.confidence > 3/10) :
    (run_healing_job dc dd fc fd j r pv cs b el pu m).1.status = AgentStatus.done ∧
    (run_healing_job dc dd fc fd j r pv cs b el pu m).1.validation_result =
      some { passed := true, output := "Sandbox validation passed (simulated)",
             duration_ms := 12000 } ∧
    (run_healing_job dc dd fc fd j r pv cs b el pu m).2 =
      [AgentEvent.setStatus AgentStatus.diagnosing, AgentEvent.anthropicCall] ++
        (SentinelAgent.generate_fix fc fd
          { job_id := j, repo_full_name := r, provider := pv, commit_sha := cs,
            branch := b, error_log := el, pipeline_url := pu,
            status := AgentStatus.diagnosing, diagnosis := some d,
            max_attempts := m }).2 ++
        [AgentEvent.setStatus AgentStatus.done] := by
  simp only [run_healing_job, diagnose_ok_eq dc dd _ d hd]
  simp [SentinelAgent.route_after_diagnose, hconf]

/-- A concrete successful run of the pipeline: the diagnosis decodes to the
confidence-0.9 `sampleDiagnosis` and the fix decodes to `sampleFix`. -/
def sampleRun : SentinelState × List AgentEvent :=
  run_healing_job (Except.ok "irrelevant") (fun _ => Except.ok sampleDiagnosis)
    (Except.ok "irrelevant") (fun _ => Except.ok sampleFix)
    "job-000001" "charan-happy/red2green" "github" "abc123" "main"
    "Traceback" "https://ci.example/run/1" 3

/-- C1: contrary to the claim, the pipeline's validation step never
invokes the validation harness: for every choice of oracles and inputs,
no harness invocation occurs in a run's event trace, and the concrete
generate-routed run stores the fixed always-passing
`ValidationResult(passed=True, output="Sandbox validation passed
(simulated)", duration_ms=12000)` instead of a harness verdict. -/
theorem C1_validation_never_runs_harness :
    (∀ (dc : Except String String) (dd : String → Except String Diagnosis)
       (fc : Except String String) (fd : String → Except String FixResult)
       (j r pv cs b el pu : String) (m : Int),
      AgentEvent.harnessCall ∉
        (run_healing_job dc dd fc fd j r pv cs b el pu m).2) ∧
    sampleRun.1.validation_result =
      some { passed := true, output := "Sandbox validation passed (simulated)",
             duration_ms := 12000 } := by
  constructor
  · intro dc dd fc fd j r pv cs b el pu m
    simp only [run_healing_job]
    split
    · intro hmem
      rcases List.mem_append.mp hmem with hmem | hmem
      · rcases List.mem_append.mp hmem with hmem | hmem
        · rw [diagnose_trace_eq] at hmem
          simp at hmem
        · exact generate_fix_trace_no_harness _ _ _ hmem
      · simp at hmem
    · intro hmem
      rcases List.mem_append.mp hmem with hmem | hmem
      · rw [diagnose_trace_eq] at hmem
        simp at hmem
      · simp at hmem
  · exact (run_healing_job_shortcut (Except.ok "irrelevant")
      (fun _ => Except.ok sampleDiagnosis) (Except.ok "irrelevant")
      (fun _ => Except.ok sampleFix) "job-000001" "charan-happy/red2green"
      "github" "abc123" "main" "Traceback" "https://ci.example/run/1" 3
      sampleDiagnosis
      (diagnoseAttempt_const "irrelevant" sampleDiagnosis
        (by norm_num [sampleDiagnosis]) (by norm_num [sampleDiagnosis]))
      (by norm_num [sampleDiagnosis])).2.1

/-- C2: contrary to the claim, a successful run reaches the terminal DONE
status without the status ever being set to VALIDATING: the concrete
generate-routed run ends at DONE, its status assignments are exactly
INGESTING (initial), DIAGNOSING, GENERATING, DONE, and no VALIDATING
assignment appears in its trace. -/
theorem C2_done_reached_without_validating :
    sampleRun.1.status = AgentStatus.done ∧
    sampleRun.2 =
      [AgentEvent.setStatus AgentStatus.diagnosing, AgentEvent.anthropicCall,
       AgentEvent.setStatus AgentStatus.generating, AgentEvent.anthropicCall,
       AgentEvent.setStatus AgentStatus.done] ∧
    AgentEvent.setStatus AgentStatus.validating ∉ sampleRun.2 := by
  have h := run_healing_job_shortcut (Except.ok "irrelevant")
    (fun _ => Except.ok sampleDiagnosis) (Except.ok "irrelevant")
    (fun _ => Except.ok sampleFix) "job-000001" "charan-happy/red2green"
    "github" "abc123" "main" "Traceback" "https://ci.example/run/1" 3
    sampleDiagnosis
    (diagnoseAttempt_const "irrelevant" sampleDiagnosis
      (by norm_num [sampleDiagnosis]) (by norm_num [sampleDiagnosis]))
    (by norm_num [sampleDiagnosis])
  have htr : sampleRun.2 =
      [AgentEvent.setStatus AgentStatus.diagnosing, AgentEvent.anthropicCall,
       AgentEvent.setStatus AgentStatus.generating, AgentEvent.anthropicCall,
       AgentEvent.setStatus AgentStatus.done] := by
    have := h.2.2
    rw [generate_fix_trace_some _ _ _ sampleDiagnosis rfl] at this
    exact this
  exact ⟨h.1, htr, by rw [htr]; decide⟩

/-- C6 counterexample: the claim says a no-diagnosis `generate_fix`
modifies no field other than the error record, including the status;
but on a fresh state (status INGESTING, no diagnosis) the call sets
status to GENERATING, since the assignment precedes the diagnosis
check. -/
theorem C6_generate_fix_status_counterexample :
    (SentinelAgent.generate_fix (Except.error "unused")
        (fun _ => Except.error "unused") sampleState).1.status =
      AgentStatus.generating ∧
    sampleState.status = AgentStatus.ingesting := by
  exact ⟨rfl, rfl⟩

/-- C6 (amended): for every state with no diagnosis, `generate_fix`
sets the status to GENERATING, appends exactly the error record
`generate_fix: no diagnosis`, leaves every other field unchanged, and
makes no fix-generation service call (its event trace holds only the
status assignment). -/
theorem C6_generate_fix_no_diagnosis_frame (callResult : Except String String)
    (decode : String → Except String FixResult) (s : SentinelState)
    (h : s.diagnosis = none) :
    (SentinelAgent.generate_fix callResult decode s).1 =
      { s with status := AgentStatus.generating,
               errors := s.errors ++ ["generate_fix: no diagnosis"] } ∧
    (SentinelAgent.generate_fix callResult decode s).2 =
      [AgentEvent.setStatus AgentStatus.generating] := by
  constructor <;> simp [SentinelAgent.generate_fix, h]

/-- C6 witness: the amended statement evaluated on a fresh state with
no diagnosis. -/
theorem C6_generate_fix_no_diagnosis_witness :
    (SentinelAgent.generate_fix (Except.error "unused")
        (fun _ => Except.error "unused") sampleState).1 =
      { sampleState with status := AgentStatus.generating,
                         errors := ["generate_fix: no diagnosis"] } ∧
    (SentinelAgent.generate_fix (Except.error "unused")
        (fun _ => Except.error "unused") sampleState).2 =
      [AgentEvent.setStatus AgentStatus.generating] :=
  C6_generate_fix_no_diagnosis_frame _ _ sampleState rfl

/-- C7: whenever the diagnose attempt fails — service-call failure,
malformed response, or schema violation, all surfacing as an
`Except.error` from `diagnoseAttempt` — the error is appended to the
state's error list as `diagnose: <e>`, the diagnosis field is left
exactly as it was, and `diagnose` still returns a state (it is a total
function, so no exception escapes the orchestrator), with status set to
DIAGNOSING. -/
theorem C7_diagnose_failure_handling (callResult : Except String String)
    (decode : String → Except String Diagnosis) (s : SentinelState) (e : String)
    (h : SentinelAgent.diagnoseAttempt callResult decode = Except.error e) :
    (SentinelAgent.diagnose callResult decode s).1.diagnosis = s.diagnosis ∧
    (SentinelAgent.diagnose callResult decode s).1.errors =
      s.errors ++ ["diagnose: " ++ e] ∧
    (SentinelAgent.diagnose callResult decode s).1.status =
      AgentStatus.diagnosing := by
  refine ⟨?_, ?_, ?_⟩ <;> simp [SentinelAgent.diagnose, h]

/-- C7 witness: a failing service call on a fresh state. -/
theorem C7_diagnose_failure_witness :
    (SentinelAgent.diagnose (Except.error "connection error")
        (fun _ => Except.error "unused") sampleState).1.diagnosis = none ∧
    (SentinelAgent.diagnose (Except.error "connection error")
        (fun _ => Except.error "unused") sampleState).1.errors =
      ["diagnose: connection error"] :=
  ⟨(C7_diagnose_failure_handling (Except.error "connection error")
      (fun _ => Except.error "unused") sampleState "connection error" rfl).1,
   (C7_diagnose_failure_handling (Except.error "connection error")
      (fun _ => Except.error "unused") sampleState "connection error" rfl).2.1⟩

/-- C8: `Diagnosis` construction (whose confidence field carries
`Field(ge=0.0, le=1.0)`) rejects a confidence of 1.5, but `FixResult`
construction (a bare `float` field with no constraint) accepts the very
same out-of-range confidence, so the claim that every successfully
constructed PatchSet has confidence in [0,1] fails on the code. -/
theorem C8_fixresult_confidence_unchecked :
    FixResult.construct [] "fix" ["pytest"] (3/2) =
      some { patches := [], explanation := "fix",
             test_commands := ["pytest"], confidence := 3/2 } ∧
    Diagnosis.construct "test_failure" "rc" [] "summary" (3/2) "approach" =
      none := by
  constructor
  · rfl
  · norm_num [Diagnosis.construct]

/-- C5: once the sandbox copy has been created, every exit path of
`test_fix_in_sandbox` — the successful run, any failed or timed-out
check (both surface as a returned result with `passed = false`), and an
internal exception raised out of either check runner — performs the
cleanup call exactly once, for every tech-stack selector; and
`cleanup_sandbox` on an existing sandbox copy removes both the copy and
its scratch parent directory from the filesystem. -/
theorem C5_cleanup_exactly_once (p : String)
    (runPython runNode : Except String SandboxTestResult) (tech_stack : String)
    (fs : List (List String)) (sp : List String)
    (hne : sp ≠ []) (hmem : sp ∈ fs) :
    (test_fix_in_sandbox (some p) runPython runNode tech_stack).2.count
      SandboxEvent.cleanup = 1 ∧
    sp ∉ (cleanup_sandbox fs sp).2 ∧
    sp.dropLast ∉ (cleanup_sandbox fs sp).2 := by
  refine ⟨?_, ?_, ?_⟩
  · cases runPython <;> cases runNode <;>
      by_cases h1 : tech_stack = "python" ∨ tech_stack = "fullstack" <;>
      by_cases h2 : tech_stack = "nodejs" ∨ tech_stack = "fullstack" <;>
      simp [test_fix_in_sandbox, h1, h2, List.count_append, List.count_cons,
        List.count_nil] <;> decide
  · simp only [cleanup_sandbox, hne, hmem, ne_eq, not_false_iff, and_self,
      if_true, true_and]
    intro hin
    rcases List.mem_filter.mp hin with ⟨-, hpred⟩
    rw [decide_eq_true_iff] at hpred
    exact hpred ( List.isPrefixOf_iff_prefix.mpr ( List.dropLast_prefix sp))
  · simp only [cleanup_sandbox, hne, hmem, ne_eq, not_false_iff, and_self,
      if_true, true_and]
    intro hin
    rcases List.mem_filter.mp hin with ⟨-, hpred⟩
    rw [decide_eq_true_iff] at hpred
    exact hpred ( List.isPrefixOf_iff_prefix.mpr ( List.prefix_rfl))

/-- C5 witness: a fullstack run whose Node.js runner raises internally
still cleans up exactly once, and cleaning an existing copy
`tmp/repo` removes both `tmp/repo` and the scratch parent `tmp`. -/
theorem C5_cleanup_exactly_once_witness :
    (test_fix_in_sandbox (some "tmp/repo")
        (Except.ok { passed := false, output := "a test failed" })
        (Except.error "MemoryError") "fullstack").2.count
      SandboxEvent.cleanup = 1 ∧
    ["tmp", "repo"] ∉ (cleanup_sandbox [["tmp"], ["tmp", "repo"]] ["tmp", "repo"]).2 ∧
    ["tmp", "repo"].dropLast ∉
      (cleanup_sandbox [["tmp"], ["tmp", "repo"]] ["tmp", "repo"]).2 :=
  C5_cleanup_exactly_once "tmp/repo"
    (Except.ok { passed := false, output := "a test failed" })
    (Except.error "MemoryError") "fullstack"
    [["tmp"], ["tmp", "repo"]] ["tmp", "repo"] (by decide) (by decide)

/-- C9: with the "fullstack" selector and no frontend project directory
in the sandbox copy, `test_nodejs_fix` executes no command at all and
returns a trivial pass, and the overall verdict of
`test_fix_in_sandbox` equals the Python segment's verdict — the absent
frontend segment never turns it into a failure. -/
theorem C9_fullstack_missing_frontend_trivial_pass
    (exec : List String → CmdOutcome) (elapsed : ℚ) (failure_type p : String)
    (pyR : SandboxTestResult) :
    (test_nodejs_fix false exec elapsed failure_type).1.passed = true ∧
    (test_nodejs_fix false exec elapsed failure_type).2 = [] ∧
    (test_fix_in_sandbox (some p) (Except.ok pyR)
        (Except.ok (test_nodejs_fix false exec elapsed failure_type).1)
        "fullstack").1 =
      Except.ok
        { tested := true, passed := pyR.passed, sandbox := none,
          tests := [("python", pyR),
                    ("nodejs", (test_nodejs_fix false exec elapsed failure_type).1)],
          error := none,
          total_duration_ms := pyR.duration_ms + elapsed } := by
  refine ⟨rfl, rfl, ?_⟩
  simp [test_fix_in_sandbox, test_nodejs_fix]

/-- C10: for every tech-stack selector outside {"python", "nodejs",
"fullstack"}, `test_fix_in_sandbox` on a successfully created sandbox
executes neither check runner, and returns `tested = true` and
`passed = true` — the conjunction over the empty list of results — so
an unrecognized selector validates any patch; the only event is the
cleanup. -/
theorem C10_unknown_stack_trivially_passes (tech_stack : String)
    (h1 : tech_stack ≠ "python") (h2 : tech_stack ≠ "nodejs")
    (h3 : tech_stack ≠ "fullstack") (p : String)
    (runPython runNode : Except String SandboxTestResult) :
    test_fix_in_sandbox (some p) runPython runNode tech_stack =
      (Except.ok { tested := true, passed := true, sandbox := none,
                   tests := [], error := none, total_duration_ms := 0 },
       [SandboxEvent.cleanup]) := by
  simp [test_fix_in_sandbox, h1, h2, h3]

/-- C10 witness: the selector "rust" silently validates a patch whose
Python and Node.js runs would both have failed. -/
theorem C10_unknown_stack_witness :
    test_fix_in_sandbox (some "tmp/repo")
        (Except.ok { passed := false, output := "a test failed" })
        (Except.ok { passed := false, output := "a test failed" })
        "rust" =
      (Except.ok { tested := true, passed := true, sandbox := none,
                   tests := [], error := none, total_duration_ms := 0 },
       [SandboxEvent.cleanup]) :=
  C10_unknown_stack_trivially_passes "rust" (by decide) (by decide) (by decide)
    "tmp/repo" (Except.ok { passed := false, output := "a test failed" })
    (Except.ok { passed := false, output := "a test failed" })

end Red2Green
